import Mathlib

/-
Verification development for the gnvim UI state engine
(src/ui/state.rs and src/ui/window.rs).

Conventions of the embedding:
- f64 values from the source are modelled as exact rationals (Rat); the
  geometry in question is purely algebraic (+, -, *, /, max) and all of
  the inputs the engine feeds it are exact cell metrics.
- The HashMap collections of the source are modelled as association
  lists with lookup / insert / remove helpers below.
- Operations that can panic in the source (unwrap on a missing key)
  return Option; a none result models the panic, which aborts event
  processing.
- Rendering-layer objects (GTK widgets, CSS providers, the drawing of a
  grid) are external collaborators per section 1 of the spec; only the
  state the engine itself owns is modelled.
-/

set_option autoImplicit false

universe u v

/-! ## Association list helpers (model of HashMap) -/

def lookupKey {κ : Type u} {α : Type v} [DecidableEq κ] (k : κ) :
    List (κ × α) → Option α
  | [] => none
  | (a, b) :: t => if a = k then some b else lookupKey k t

def removeKey {κ : Type u} {α : Type v} [DecidableEq κ] (k : κ) :
    List (κ × α) → List (κ × α)
  | [] => []
  | (a, b) :: t =>
    if a = k then removeKey k t else (a, b) :: removeKey k t

def insertKey {κ : Type u} {α : Type v} [DecidableEq κ] (k : κ) (v : α)
    (l : List (κ × α)) : List (κ × α) :=
  (k, v) :: removeKey k l

/-! ## Casts between Rat and machine integers

Rust numeric casts from f64 truncate toward zero; `as u64` additionally
clamps negative values to 0. On exact rationals truncation toward zero
is integer division of the numerator by the denominator. -/

def ratTruncI64 (r : Rat) : Int :=
  Int.tdiv r.num (r.den : Int)

def ratTruncU64 (r : Rat) : Nat :=
  (ratTruncI64 r).toNat

/-! ## Floating window geometry (src/ui/state.rs lines 1009-1049)

The Anchor type comes from the nvim_bridge module, which is not among
the given sources. Modelled from the spec: an anchor corner is one of
NW, NE, SW, SE; the west corners are NW and SW, the north corners are
NW and NE. -/

inductive Anchor where
  | NW
  | NE
  | SW
  | SE
deriving DecidableEq

/-- Modelled from the spec: the west corners among the four anchor
corners (nvim_bridge is not part of the given sources). -/
def Anchor.is_west : Anchor → Bool
  | Anchor.NW => true
  | Anchor.SW => true
  | Anchor.NE => false
  | Anchor.SE => false

/-- Modelled from the spec: the north corners among the four anchor
corners (nvim_bridge is not part of the given sources). -/
def Anchor.is_north : Anchor → Bool
  | Anchor.NW => true
  | Anchor.NE => true
  | Anchor.SW => false
  | Anchor.SE => false

/-- Cell and pixel metrics of a grid, as returned by
Grid::get_grid_metrics (ui/grid.rs, not among the given sources). The
field set is exactly the one the given sources consume: rows, cols,
width, height, cell_width, cell_height, all f64 in the source. -/
structure GridMetrics where
  rows : Rat
  cols : Rat
  width : Rat
  height : Rat
  cell_width : Rat
  cell_height : Rat
deriving DecidableEq

/-- The WindowFloatPos redraw event (nvim_bridge, fields as used by
src/ui/state.rs). The nvim window handle is modelled as an integer. -/
structure WindowFloatPos where
  grid : Int
  win : Int
  anchor : Anchor
  anchor_grid : Int
  anchor_row : Rat
  anchor_col : Rat
  focusable : Bool
deriving DecidableEq

/-- Embedding of win_float_anchor_pos (src/ui/state.rs lines
1028-1049). -/
def win_float_anchor_pos (evt : WindowFloatPos)
    (anchor_metrics : GridMetrics) (wh : Rat × Rat)
    (offset : Rat × Rat) : Rat × Rat :=
  let x :=
    if evt.anchor.is_west then
      offset.1 + anchor_metrics.cell_width * evt.anchor_col
    else
      offset.1 + anchor_metrics.cell_width * evt.anchor_col - wh.1
  let y :=
    if evt.anchor.is_north then
      offset.2 + anchor_metrics.cell_height * evt.anchor_row
    else
      offset.2 + anchor_metrics.cell_height * evt.anchor_row - wh.2
  (max x 0, max y 0)

/-- Embedding of win_float_adjust_size (src/ui/state.rs lines
1009-1026). The first component is the reduced column count, the
second the reduced row count, mirroring the (cols, rows) pair of the
source. -/
def win_float_adjust_size (grid_metrics : GridMetrics)
    (base_metrics : GridMetrics) (xy : Rat × Rat) :
    Option Rat × Option Rat :=
  let rows :=
    if grid_metrics.rows + xy.2 / base_metrics.cell_height >
        base_metrics.rows then
      some (base_metrics.rows - xy.2 / base_metrics.cell_height - 1)
    else
      none
  let cols :=
    if grid_metrics.cols + xy.1 / base_metrics.cell_width >
        base_metrics.cols then
      some (base_metrics.cols - xy.1 / base_metrics.cell_width)
    else
      none
  (cols, rows)

/-- Outbound asynchronous requests to the remote editor. -/
inductive Request where
  | UiTryResize (cols : Int) (rows : Int)
  | UiTryResizeGrid (grid : Int) (cols : Int) (rows : Int)
deriving DecidableEq

/-- The request-issuing and show tail of UIState::window_float_pos
(src/ui/state.rs lines 669-691): once (x, y) is computed, an
advisory grid resize request is issued when either axis needs
shrinking, and the window is positioned and shown at the floating
grid metrics regardless. Returns the optional request together with
the position and size passed to Window::set_position / show. -/
def window_float_pos_effects (grid : Int) (grid_metrics : GridMetrics)
    (base_metrics : GridMetrics) (xy : Rat × Rat) :
    Option Request × ((Rat × Rat) × (Rat × Rat)) :=
  let new_size := win_float_adjust_size grid_metrics base_metrics xy
  let req :=
    if new_size.1.isSome || new_size.2.isSome then
      some (Request.UiTryResizeGrid grid
        (ratTruncI64 (new_size.1.getD grid_metrics.cols))
        (ratTruncI64 (new_size.2.getD grid_metrics.rows)))
    else
      none
  (req, (xy, (grid_metrics.width, grid_metrics.height)))

/-! ## Font and Grid (ui/font.rs and ui/grid.rs, not among the given
sources) -/

/-- Modelled from the spec: the Font type of ui/font.rs is not among
the given sources; per section 1 font metric computation is an external
collaborator. A font is modelled as its guifont descriptor together
with a nominal pixel height from which cell metrics derive. -/
structure Font where
  name : String
  height : Nat
deriving DecidableEq

/-- Modelled from the spec: Font::default of ui/font.rs. -/
def Font.default : Font :=
  { name := "", height := 12 }

/-- Modelled from the spec: Font::from_guifont of ui/font.rs parses a
guifont option string; parsing details are out of scope, so the model
fails on the empty string and otherwise records the descriptor. -/
def Font.from_guifont (s : String) : Option Font :=
  if s = "" then none else some { name := s, height := 12 + s.length }

/-- Modelled from the spec: the width of one character cell under a
font (font metric computation is external per section 1). -/
def Font.char_width (f : Font) : Rat :=
  ((f.height : Rat) + 1) / 2

/-- Modelled from the spec: the height of one character cell is the
font height plus the configured line spacing (section 4.6). -/
def Font.char_height (f : Font) (line_space : Int) : Rat :=
  (f.height : Rat) + line_space

/-- One grid_line segment (nvim_bridge::GridLineSegment), modelled
with the fields the given sources consume: the target grid id and an
opaque payload of styled cells. -/
structure GridLineSegment where
  grid : Int
  row : Nat
  col_start : Nat
  cells : List (String × Int)
deriving DecidableEq

/-- Modelled from the spec: the Grid component of ui/grid.rs is not
among the given sources. Per sections 3, 4.2 and 4.6 a grid is an id,
a font and line spacing determining its cell metrics, cell dimensions
(rows, cols) set by its last resize, the pixel size of its drawing
area, and the styled content written by put_line. -/
structure Grid where
  id : Int
  font : Font
  line_space : Int
  rows : Nat
  cols : Nat
  width : Rat
  height : Rat
  lines : List GridLineSegment
deriving DecidableEq

/-- Modelled from the spec: Grid::get_font. -/
def Grid.get_font (g : Grid) : Font :=
  g.font

/-- Modelled from the spec: Grid::get_line_space. -/
def Grid.get_line_space (g : Grid) : Int :=
  g.line_space

/-- Modelled from the spec: Grid::get_grid_metrics exposes the cell
metrics derived from the font and line spacing together with the cell
and pixel dimensions. -/
def Grid.get_grid_metrics (g : Grid) : GridMetrics :=
  { rows := g.rows
    cols := g.cols
    width := g.width
    height := g.height
    cell_width := g.font.char_width
    cell_height := g.font.char_height g.line_space }

/-- Modelled from the spec: Grid::resize sets the cell dimensions and
resizes the drawing area to match (section 3: a grid's cell buffer
dimensions always match its last resize call). -/
def Grid.resize (g : Grid) (cols : Nat) (rows : Nat) : Grid :=
  { g with
    cols := cols
    rows := rows
    width := (cols : Rat) * g.font.char_width
    height := (rows : Rat) * g.font.char_height g.line_space }

/-- Modelled from the spec: Grid::update_cell_metrics rebinds the font
and line spacing of the grid (section 4.6); the pixel size of the
drawing area is untouched until the remote editor answers the resize
request. -/
def Grid.update_cell_metrics (g : Grid) (font : Font)
    (line_space : Int) : Grid :=
  { g with font := font, line_space := line_space }

/-- Modelled from the spec: Grid::calc_size computes the logical
column/row count from the pixel size and the current cell metrics
(section 4.6). -/
def Grid.calc_size (g : Grid) : Int × Int :=
  (ratTruncI64 (g.width / g.font.char_width),
   ratTruncI64 (g.height / g.font.char_height g.line_space))

/-- Modelled from the spec: Grid::put_line writes one row of styled
cells into the grid (section 4.2); the model records the segment. -/
def Grid.put_line (g : Grid) (line : GridLineSegment) : Grid :=
  { g with lines := line :: g.lines }

/-! ## Highlight table (ui/color.rs, not among the given sources) -/

/-- The semantic roles of HlDefs::set_hl_group, named as in the
source (ui/color.rs HlGroup, reconstructed from the uses in
src/ui/state.rs lines 268-294 and 403-423). -/
inductive HlGroup where
  | Pmenu
  | PmenuSel
  | Wildmenu
  | WildmenuSel
  | Tabline
  | TablineSel
  | TablineFill
  | Cmdline
  | CmdlineBorder
  | MsgSeparator
deriving DecidableEq

/-- Modelled from the spec: the HlDefs table of ui/color.rs is not
among the given sources; the model keeps the part the verified
operations touch, the mapping from semantic roles to highlight ids
(section 3, HighlightTable). -/
structure HlDefs where
  groups : List (HlGroup × Int)
deriving DecidableEq

/-- Modelled from the spec: HlDefs::set_hl_group aliases one semantic
role to a highlight id. -/
def HlDefs.set_hl_group (hd : HlDefs) (g : HlGroup) (id : Int) : HlDefs :=
  { hd with groups := insertKey g id hd.groups }

/-! ## Window (src/ui/window.rs) -/

/-- Embedding of ui/window.rs Window. GTK widget handles are modelled
by what the engine observes of them: the identity of the parent
container, the last size request of the frame, the visibility of the
frame, and the optional external toplevel (carrying the id of the
surface it is transient for). -/
structure Window where
  parent : Nat
  frame_size : Int × Int
  frame_shown : Bool
  external_win : Option Nat
  x : Rat
  y : Rat
  grid_id : Int
  nvim_win : Int
deriving DecidableEq

/-- Embedding of Window::new (src/ui/window.rs lines 87-127). -/
def Window.new (win : Int) (fixed : Nat) (grid : Grid) : Window :=
  { parent := fixed
    frame_size := (-1, -1)
    frame_shown := false
    external_win := none
    x := 0
    y := 0
    grid_id := grid.id
    nvim_win := win }

/-- Embedding of Window::set_parent (src/ui/window.rs lines
156-162). -/
def Window.set_parent (w : Window) (fixed : Nat) : Window :=
  if w.parent ≠ fixed then { w with parent := fixed } else w

/-- Embedding of Window::resize (src/ui/window.rs lines 164-166). -/
def Window.resize (w : Window) (size : Int × Int) : Window :=
  { w with frame_size := size }

/-- Embedding of Window::set_external (src/ui/window.rs lines
168-189): a no-op when an external toplevel already exists, otherwise
the frame is resized, reparented into a fresh toplevel transient for
the given parent, and shown. -/
def Window.set_external (w : Window) (parent : Nat)
    (size : Int × Int) : Window :=
  if w.external_win.isSome then
    w
  else
    { w with
      frame_size := size
      frame_shown := true
      external_win := some parent }

/-- Embedding of Window::set_position (src/ui/window.rs lines
191-205): tears down an active external toplevel, records the new
position and issues the size request. -/
def Window.set_position (w : Window) (x : Rat) (y : Rat)
    (wd : Rat) (h : Rat) : Window :=
  { w with
    external_win := none
    x := x
    y := y
    frame_size := (Rat.ceil wd, Rat.ceil h) }

/-- Embedding of Window::show (src/ui/window.rs lines 207-209). -/
def Window.show (w : Window) : Window :=
  { w with frame_shown := true }

/-- Embedding of Window::hide (src/ui/window.rs lines 211-213). -/
def Window.hide (w : Window) : Window :=
  { w with frame_shown := false }

/-! ## Remaining event payloads (nvim_bridge, fields as consumed by
src/ui/state.rs) -/

/-- The HlGroupSet redraw event. -/
structure HlGroupSet where
  name : String
  hl_id : Int
deriving DecidableEq

/-- The WindowExternalPos redraw event; the nvim window handle is
modelled as an integer. -/
structure WindowExternalPos where
  grid : Int
  win : Int
deriving DecidableEq

/-- The PopupmenuShow redraw event. Completion items are modelled as
opaque strings; the grid field is -1 for the wildmenu variant. -/
structure PopupmenuShow where
  grid : Int
  items : List String
  selected : Int
  row : Nat
  col : Nat
deriving DecidableEq

/-- The OptionSet redraw event variants the engine knows
(nvim_bridge::OptionSet as consumed by UIState::option_set). -/
inductive OptionSet where
  | GuiFont (font : String)
  | LineSpace (val : Int)
  | NotSupported (name : String)
deriving DecidableEq

/-- Embedding of ResizeOptions (src/ui/state.rs lines 35-38): the
single pending-resize record accumulated across OptionSet events. -/
structure ResizeOptions where
  font : Font
  line_space : Int
deriving DecidableEq

/-- The visual treatment an event of the popupmenu family routes to:
either the wildmenu widget of the command line or the completion
popupmenu widget (both rendering-layer collaborators). -/
inductive PmEffect where
  | WildmenuShow
  | WildmenuHide
  | WildmenuSelect (i : Int)
  | MenuShow
  | MenuHide
  | MenuSelect (i : Int)
deriving DecidableEq

/-! ## UIState (src/ui/state.rs lines 41-87)

The GTK containers are identified by small constants; widget handles
(css provider, overlay, popupmenu, cmdline, tabline widgets) are
rendering-layer collaborators and carry no engine state beyond what
the fields below record. -/

def windowsContainerId : Nat := 0

def windowsFloatContainerId : Nat := 1

def appWindowId : Nat := 100

/-- Embedding of the UIState structure (src/ui/state.rs lines 41-87),
restricted to the engine-owned state: the grid and window collections,
the highlight table, mode bookkeeping omitted widgets aside, the
current grid id, the wildmenu flag, the pending resize record, the
delayed-resize source id, the dirty flag for highlight changes, and
the current font and line spacing. -/
structure UIState where
  windows : List (Int × Window)
  grids : List (Int × Grid)
  hl_defs : HlDefs
  current_grid : Int
  wildmenu_shown : Bool
  resize_source_id : Option Nat
  resize_on_flush : Option ResizeOptions
  hl_changed : Bool
  font : Font
  line_space : Int
deriving DecidableEq

/-- Embedding of UIState::grid_line (src/ui/state.rs lines 197-200):
the source unwraps the grid lookup, so an unknown grid id panics;
the panic is modelled by none. -/
def UIState.grid_line (st : UIState) (line : GridLineSegment) :
    Option UIState :=
  match lookupKey line.grid st.grids with
  | none => none
  | some g =>
    some { st with grids := insertKey line.grid (g.put_line line) st.grids }

/-- Embedding of UIState::grid_destroy (src/ui/state.rs lines
207-222): the grid is removed (with a warning when it was absent), the
window hosting it is removed when present, and current_grid is set to
the default grid 1. The Bool result records whether the warning was
logged. -/
def UIState.grid_destroy (st : UIState) (grid : Int) :
    UIState × Bool :=
  let warned := (lookupKey grid st.grids).isNone
  let grids := removeKey grid st.grids
  let windows :=
    if (lookupKey grid st.windows).isSome then
      removeKey grid st.windows
    else
      st.windows
  ({ st with grids := grids, windows := windows, current_grid := 1 },
   warned)

/-- Embedding of UIState::hl_group_set (src/ui/state.rs lines
268-294): a fixed set of exactly matched group names update the role
mapping; the hl_changed flag is set afterwards on every path. -/
def UIState.hl_group_set (st : UIState) (evt : HlGroupSet) : UIState :=
  let hl_defs :=
    if evt.name = "Pmenu" then
      (st.hl_defs.set_hl_group HlGroup.Pmenu evt.hl_id).set_hl_group
        HlGroup.Wildmenu evt.hl_id
    else if evt.name = "PmenuSel" then
      (st.hl_defs.set_hl_group HlGroup.PmenuSel evt.hl_id).set_hl_group
        HlGroup.WildmenuSel evt.hl_id
    else if evt.name = "TabLine" then
      st.hl_defs.set_hl_group HlGroup.Tabline evt.hl_id
    else if evt.name = "TabLineSel" then
      (st.hl_defs.set_hl_group HlGroup.TablineSel evt.hl_id).set_hl_group
        HlGroup.CmdlineBorder evt.hl_id
    else if evt.name = "TabLineFill" then
      st.hl_defs.set_hl_group HlGroup.TablineFill evt.hl_id
    else if evt.name = "Normal" then
      st.hl_defs.set_hl_group HlGroup.Cmdline evt.hl_id
    else if evt.name = "MsgSeparator" then
      st.hl_defs.set_hl_group HlGroup.MsgSeparator evt.hl_id
    else
      st.hl_defs
  { st with hl_defs := hl_defs, hl_changed := true }

/-- The exactly matched highlight group names recognized by
UIState::hl_group_set. -/
def recognizedHlGroups : List String :=
  ["Pmenu", "PmenuSel", "TabLine", "TabLineSel", "TabLineFill",
   "Normal", "MsgSeparator"]

/-- Embedding of UIState::option_set (src/ui/state.rs lines 296-335).
A font or line-space change records the new value and accumulates it
into the pending resize record, seeding the record from the current
font and line spacing of grid 1 when it is absent; the seeding unwraps
the lookup of grid 1, modelled by none. An unsupported option is
logged at debug level and ignored. -/
def UIState.option_set (st : UIState) (opt : OptionSet) :
    Option UIState :=
  match opt with
  | OptionSet.GuiFont name =>
    let font := (Font.from_guifont name).getD Font.default
    let seeded :=
      match st.resize_on_flush with
      | some opts => some opts
      | none =>
        (lookupKey 1 st.grids).map fun (g : Grid) =>
          ({ font := g.get_font, line_space := g.get_line_space } :
            ResizeOptions)
    seeded.map fun opts =>
      { st with
        font := font
        resize_on_flush := some { opts with font := font } }
  | OptionSet.LineSpace val =>
    let seeded :=
      match st.resize_on_flush with
      | some opts => some opts
      | none =>
        (lookupKey 1 st.grids).map fun (g : Grid) =>
          ({ font := g.get_font, line_space := g.get_line_space } :
            ResizeOptions)
    seeded.map fun opts =>
      { st with
        line_space := val
        resize_on_flush := some { opts with line_space := val } }
  | OptionSet.NotSupported _ => some st

/-- The highlight-regeneration tail of UIState::flush (src/ui/state.rs
lines 403-474): when the dirty flag is set, the aux surfaces re-read
their colors and the derived style sheet is regenerated (both
rendering-layer effects), then the flag clears. -/
def UIState.flushHl (st : UIState) : UIState :=
  if st.hl_changed then { st with hl_changed := false } else st

/-- Embedding of UIState::flush (src/ui/state.rs lines 358-401 plus
the highlight tail). When a pending resize record exists, every grid
has its cell metrics rebound, the logical size of grid 1 is recomputed
from its pixel size (the lookup of grid 1 is unwrapped, modelled by
none), any delayed resize source is cancelled, and exactly one
ui_try_resize request carrying that size is dispatched. The returned
list holds the outbound requests of this flush. -/
def UIState.flush (st : UIState) : Option (UIState × List Request) :=
  match st.resize_on_flush with
  | none => some (st.flushHl, [])
  | some opts =>
    let grids := st.grids.map fun p =>
      (p.1, p.2.update_cell_metrics opts.font opts.line_space)
    match lookupKey 1 grids with
    | none => none
    | some g1 =>
      let cr := g1.calc_size
      some
        (UIState.flushHl
          { st with
            grids := grids
            resize_on_flush := none
            resize_source_id := none },
         [Request.UiTryResize cr.1 cr.2])

/-- Embedding of UIState::popupmenu_show (src/ui/state.rs lines
477-512). A grid field of -1 marks the wildmenu: the flag is set and
the wildmenu treatment shows. Otherwise the completion menu shows,
anchored through the unwrapped lookups of the current grid and of the
window hosting the target grid (modelled by none). -/
def UIState.popupmenu_show (st : UIState) (e : PopupmenuShow) :
    Option (UIState × PmEffect) :=
  if e.grid = -1 then
    some ({ st with wildmenu_shown := true }, PmEffect.WildmenuShow)
  else
    match lookupKey st.current_grid st.grids with
    | none => none
    | some _ =>
      match lookupKey e.grid st.windows with
      | none => none
      | some _ => some (st, PmEffect.MenuShow)

/-- Embedding of UIState::popupmenu_hide (src/ui/state.rs lines
514-528): the hide routes on the wildmenu flag; the flag itself is not
written on either path. -/
def UIState.popupmenu_hide (st : UIState) : UIState × PmEffect :=
  if st.wildmenu_shown then
    (st, PmEffect.WildmenuHide)
  else
    (st, PmEffect.MenuHide)

/-- Embedding of UIState::popupmenu_select (src/ui/state.rs lines
530-536): the selection routes on the wildmenu flag; the flag itself
is not written on either path. -/
def UIState.popupmenu_select (st : UIState) (selected : Int) :
    UIState × PmEffect :=
  if st.wildmenu_shown then
    (st, PmEffect.WildmenuSelect selected)
  else
    (st, PmEffect.MenuSelect selected)

/-- Embedding of UIState::window_external_pos (src/ui/state.rs lines
693-732): the grid lookup is unwrapped (modelled by none); a missing
window is created attached to the float container; the window is
promoted to an external toplevel sized to the grid pixel metrics; the
grid is then re-resized to its own current cell dimensions against the
new surface. -/
def UIState.window_external_pos (st : UIState)
    (evt : WindowExternalPos) : Option UIState :=
  match lookupKey evt.grid st.grids with
  | none => none
  | some grid =>
    let window :=
      (lookupKey evt.grid st.windows).getD
        (Window.new evt.win windowsFloatContainerId grid)
    let gm := grid.get_grid_metrics
    let window :=
      window.set_external appWindowId (Rat.ceil gm.width, Rat.ceil gm.height)
    let grid := grid.resize (ratTruncU64 gm.cols) (ratTruncU64 gm.rows)
    some
      { st with
        windows := insertKey evt.grid window st.windows
        grids := insertKey evt.grid grid st.grids }

/-! ## Sequencing helpers for the claims about event sequences -/

/-- Fold of UIState::option_set over a list of OptionSet events, in
array order as dispatched by handle_redraw_event. -/
def applyOptionSets (st : UIState) : List OptionSet → Option UIState
  | [] => some st
  | e :: rest => (st.option_set e).bind (applyOptionSets · rest)

/-- The pure accumulation a single OptionSet event performs on the
pending resize record. -/
def applyResizeOpt (acc : ResizeOptions) : OptionSet → ResizeOptions
  | OptionSet.GuiFont name =>
    { acc with font := (Font.from_guifont name).getD Font.default }
  | OptionSet.LineSpace val => { acc with line_space := val }
  | OptionSet.NotSupported _ => acc

/-- Whether an OptionSet event is one of the two resize-relevant
variants. -/
def isResizeOpt : OptionSet → Bool
  | OptionSet.GuiFont _ => true
  | OptionSet.LineSpace _ => true
  | OptionSet.NotSupported _ => false

/-! ## Concrete sample states for witnesses and counterexamples -/

/-- A grid with default font and no line spacing, sized consistently
with its cell dimensions. -/
def sampleGrid (id : Int) (cols : Nat) (rows : Nat) : Grid :=
  { id := id
    font := Font.default
    line_space := 0
    rows := rows
    cols := cols
    width := (cols : Rat) * Font.default.char_width
    height := (rows : Rat) * Font.default.char_height 0
    lines := [] }

/-- A state holding only the primary grid, sized 80 x 24. -/
def baseState : UIState :=
  { windows := []
    grids := [(1, sampleGrid 1 80 24)]
    hl_defs := { groups := [] }
    current_grid := 1
    wildmenu_shown := false
    resize_source_id := none
    resize_on_flush := none
    hl_changed := false
    font := Font.default
    line_space := 0 }

/-- A state with the primary grid and a second grid, grid 2 current. -/
def twoGridState : UIState :=
  { baseState with
    grids := [(1, sampleGrid 1 80 24), (2, sampleGrid 2 40 10)]
    current_grid := 2 }

/-- A state with the primary grid and two more grids, grid 2
current. -/
def threeGridState : UIState :=
  { baseState with
    grids :=
      [(1, sampleGrid 1 80 24), (2, sampleGrid 2 40 10),
       (3, sampleGrid 3 20 5)]
    current_grid := 2 }

/-- A state with grids 1 and 2 where grid 2 is hosted by a docked
window, used for the popupmenu routing scenario. -/
def pmState : UIState :=
  { baseState with
    grids := [(1, sampleGrid 1 80 24), (2, sampleGrid 2 40 10)]
    windows := [(2, Window.new 7 windowsContainerId (sampleGrid 2 40 10))] }

/-- pmState after a wildmenu show. -/
def pmStateWild : UIState :=
  { pmState with wildmenu_shown := true }

/-- A wildmenu-flavored PopupmenuShow event (grid -1). -/
def pmShowWild : PopupmenuShow :=
  { grid := -1, items := ["first"], selected := 0, row := 0, col := 0 }

/-- A completion-menu PopupmenuShow event targeting grid 2. -/
def pmShowMenu : PopupmenuShow :=
  { grid := 2, items := ["first"], selected := 0, row := 0, col := 0 }

/-- A grid_line segment addressing the unknown grid 5. -/
def lineToUnknownGrid : GridLineSegment :=
  { grid := 5, row := 0, col_start := 0, cells := [("x", 0)] }

/-- An already externalized window hosting grid 2. -/
def extWindow : Window :=
  { parent := windowsFloatContainerId
    frame_size := (10, 10)
    frame_shown := true
    external_win := some appWindowId
    x := 0
    y := 0
    grid_id := 2
    nvim_win := 7 }

/-! ## Helper lemmas about the association list model -/

theorem lookupKey_insertKey_self {κ : Type u} {α : Type v}
    [DecidableEq κ] (k : κ) (v : α) (l : List (κ × α)) :
    lookupKey k (insertKey k v l) = some v := by
  simp [insertKey, lookupKey]

theorem lookupKey_removeKey_ne {κ : Type u} {α : Type v}
    [DecidableEq κ] {j : κ} {k : κ} (h : j ≠ k) (l : List (κ × α)) :
    lookupKey j (removeKey k l) = lookupKey j l := by
  induction l with
  | nil => rfl
  | cons p t ih =>
    cases p with
    | mk a b =>
      by_cases hak : a = k
      · have haj : ¬ a = j := fun hc => h (hc.symm.trans hak)
        have hkj : ¬ k = j := fun hc => h hc.symm
        simp [removeKey, lookupKey, hak, haj, hkj, ih]
      · by_cases haj : a = j
        · simp [removeKey, lookupKey, hak, haj, h]
        · simp [removeKey, lookupKey, hak, haj, ih]

theorem removeKey_eq_of_lookup_none {κ : Type u} {α : Type v}
    [DecidableEq κ] {k : κ} {l : List (κ × α)}
    (h : lookupKey k l = none) : removeKey k l = l := by
  induction l with
  | nil => rfl
  | cons p t ih =>
    cases p with
    | mk a b =>
      by_cases ha : a = k
      · simp [lookupKey, ha] at h
      · simp [lookupKey, ha] at h
        simp [removeKey, ha, ih h]

theorem removeKey_removeKey {κ : Type u} {α : Type v}
    [DecidableEq κ] (k : κ) (l : List (κ × α)) :
    removeKey k (removeKey k l) = removeKey k l := by
  induction l with
  | nil => rfl
  | cons p t ih =>
    cases p with
    | mk a b =>
      by_cases ha : a = k
      · simp [removeKey, ha, ih]
      · simp [removeKey, ha, ih]

theorem insertKey_insertKey {κ : Type u} {α : Type v}
    [DecidableEq κ] (k : κ) (v : α) (w : α) (l : List (κ × α)) :
    insertKey k v (insertKey k w l) = insertKey k v l := by
  simp [insertKey, removeKey, removeKey_removeKey]

theorem lookupKey_map {κ : Type u} {α β : Type v} [DecidableEq κ]
    (f : α → β) (k : κ) (l : List (κ × α)) :
    lookupKey k (l.map fun p => (p.1, f p.2)) =
      (lookupKey k l).map f := by
  induction l with
  | nil => rfl
  | cons p t ih =>
    cases p with
    | mk a b =>
      by_cases ha : a = k
      · simp [lookupKey, ha]
      · simp [lookupKey, ha, ih]

theorem ratTruncU64_natCast (n : Nat) :
    ratTruncU64 ((n : Nat) : Rat) = n := by
  simp [ratTruncU64, ratTruncI64, Rat.num_natCast, Rat.den_natCast,
    Int.tdiv_one]

/-! ## Sanity checks mirroring the unit tests of src/ui/state.rs
(test_float_anchor_pos) -/

theorem float_anchor_pos_matches_repo_test_nw :
    win_float_anchor_pos
      { grid := 1, win := 0, anchor := Anchor.NW, anchor_grid := 1,
        anchor_row := 10, anchor_col := 10, focusable := false }
      { rows := 0, cols := 0, width := 0, height := 0,
        cell_width := 10, cell_height := 10 }
      (1000, 1000) (5, 5) = (105, 105) := by
  norm_num [win_float_anchor_pos, Anchor.is_west, Anchor.is_north]

theorem float_anchor_pos_matches_repo_test_se :
    win_float_anchor_pos
      { grid := 1, win := 0, anchor := Anchor.SE, anchor_grid := 1,
        anchor_row := 10, anchor_col := 10, focusable := false }
      { rows := 0, cols := 0, width := 0, height := 0,
        cell_width := 10, cell_height := 10 }
      (100, 100) (5, 5) = (5, 5) := by
  norm_num [win_float_anchor_pos, Anchor.is_west, Anchor.is_north]

theorem float_anchor_pos_matches_repo_test_sw_clamp :
    win_float_anchor_pos
      { grid := 1, win := 0, anchor := Anchor.SW, anchor_grid := 1,
        anchor_row := -10, anchor_col := 10, focusable := false }
      { rows := 0, cols := 0, width := 0, height := 0,
        cell_width := 10, cell_height := 10 }
      (100, 100) (5, 5) = (105, 0) := by
  norm_num [win_float_anchor_pos, Anchor.is_west, Anchor.is_north]

/-! ## Claim theorems -/

/-- Claim C1: for every anchor corner and every combination of offset
origin, anchor row and column, cell metrics and floating pixel size,
win_float_anchor_pos returns coordinates clamped to be at least 0 on
both axes, and before clamping the x coordinate is
offset_x + cell_width * anchor_col for the west corners and the same
minus the floating width for the east corners, symmetrically in y with
north and south, cell_height, anchor_row and the floating height. -/
theorem win_float_anchor_pos_clamped_formula (evt : WindowFloatPos)
    (am : GridMetrics) (w : Rat) (h : Rat) (x0 : Rat) (y0 : Rat) :
    win_float_anchor_pos evt am (w, h) (x0, y0) =
      (max (if evt.anchor.is_west then
              x0 + am.cell_width * evt.anchor_col
            else
              x0 + am.cell_width * evt.anchor_col - w) 0,
       max (if evt.anchor.is_north then
              y0 + am.cell_height * evt.anchor_row
            else
              y0 + am.cell_height * evt.anchor_row - h) 0) ∧
    0 ≤ (win_float_anchor_pos evt am (w, h) (x0, y0)).1 ∧
    0 ≤ (win_float_anchor_pos evt am (w, h) (x0, y0)).2 :=
  ⟨rfl, le_max_right _ _, le_max_right _ _⟩

/-- Claim C2: the reduced row count
base_rows - y / base_cell_height - 1 is returned exactly when
float_rows + y / base_cell_height exceeds base_rows; the reduced
column count base_cols - x / base_cell_width (with no further -1) is
returned exactly when the symmetric column condition holds; a grid
resize request is issued exactly when one of the two reductions
exists; and the window is positioned and shown at the floating grid's
current pixel size regardless. -/
theorem win_float_adjust_size_reduced_iff (g : Int)
    (gm : GridMetrics) (bm : GridMetrics) (x : Rat) (y : Rat) :
    ((win_float_adjust_size gm bm (x, y)).2 =
        some (bm.rows - y / bm.cell_height - 1) ↔
      gm.rows + y / bm.cell_height > bm.rows) ∧
    ((win_float_adjust_size gm bm (x, y)).1 =
        some (bm.cols - x / bm.cell_width) ↔
      gm.cols + x / bm.cell_width > bm.cols) ∧
    ((window_float_pos_effects g gm bm (x, y)).1.isSome =
      ((win_float_adjust_size gm bm (x, y)).1.isSome ||
        (win_float_adjust_size gm bm (x, y)).2.isSome)) ∧
    (window_float_pos_effects g gm bm (x, y)).2 =
      ((x, y), (gm.width, gm.height)) := by
  refine ⟨?_, ?_, ?_, rfl⟩
  · by_cases hr : gm.rows + y / bm.cell_height > bm.rows
    · simp [win_float_adjust_size, hr]
    · simp [win_float_adjust_size, hr]
  · by_cases hc : gm.cols + x / bm.cell_width > bm.cols
    · simp [win_float_adjust_size, hc]
    · simp [win_float_adjust_size, hc]
  · simp only [window_float_pos_effects]
    by_cases hs :
        ((win_float_adjust_size gm bm (x, y)).1.isSome ||
          (win_float_adjust_size gm bm (x, y)).2.isSome) = true
    · simp [hs]
    · simp [hs]

/-- Claim C4 counterexample: destroying grid 1 itself (which the
engine does not special-case, per section 4.2 of the spec) leaves
current_grid = 1 pointing at a grid that no longer exists, so the part
of the claim stating that CurrentGrid always refers to an existing
grid after the operation is false on the code. -/
theorem grid_destroy_primary_cex :
    (baseState.grid_destroy 1).1.current_grid = 1 ∧
    lookupKey (baseState.grid_destroy 1).1.current_grid
      (baseState.grid_destroy 1).1.grids = none := by
  constructor
  · rfl
  · rfl

/-- Claim C4, amended: after destroying a grid other than grid 1 in a
state where grid 1 exists, current_grid equals 1 (in particular when
the destroyed grid was the current one), grid 1 is never removed as a
side effect, and current_grid refers to an existing grid. The
amendment excludes the destruction of grid 1 itself, which the engine
does not special-case. -/
theorem grid_destroy_resets_and_preserves (st : UIState) (g : Int)
    (g1 : Grid) (hne : g ≠ 1) (h1 : lookupKey 1 st.grids = some g1) :
    (st.grid_destroy g).1.current_grid = 1 ∧
    lookupKey 1 (st.grid_destroy g).1.grids = some g1 ∧
    (lookupKey (st.grid_destroy g).1.current_grid
      (st.grid_destroy g).1.grids).isSome = true := by
  have hl : lookupKey 1 (removeKey g st.grids) = some g1 := by
    rw [lookupKey_removeKey_ne (Ne.symm hne)]
    exact h1
  refine ⟨rfl, ?_, ?_⟩
  · exact hl
  · show (lookupKey 1 (removeKey g st.grids)).isSome = true
    simp [hl]

/-- Witness for the amended claim C4 at a concrete state holding
grids 1 and 2, destroying grid 2. -/
theorem grid_destroy_resets_and_preserves_witness :
    (2 : Int) ≠ 1 ∧
    lookupKey 1 twoGridState.grids = some (sampleGrid 1 80 24) ∧
    ((twoGridState.grid_destroy 2).1.current_grid = 1 ∧
     lookupKey 1 (twoGridState.grid_destroy 2).1.grids =
       some (sampleGrid 1 80 24) ∧
     (lookupKey (twoGridState.grid_destroy 2).1.current_grid
       (twoGridState.grid_destroy 2).1.grids).isSome = true) :=
  ⟨by decide, by rfl,
    grid_destroy_resets_and_preserves twoGridState 2
      (sampleGrid 1 80 24) (by decide) (by rfl)⟩

/-- Claim C6 counterexample: destroying the unknown grid 5 in a state
whose current grid is 2 does log the warning, but the operation is not
a no-op: current_grid changes from 2 to 1. -/
theorem grid_destroy_unknown_cex :
    (twoGridState.grid_destroy 5).2 = true ∧
    twoGridState.current_grid = 2 ∧
    (twoGridState.grid_destroy 5).1.current_grid = 1 := by
  refine ⟨?_, rfl, rfl⟩
  rfl

/-- Claim C6, amended: a GridDestroy for an unknown grid id logs a
warning and removes no grid, but it is not otherwise a no-op:
current_grid is still unconditionally reset to 1 (and a window stored
under that id, if any, is removed); the remaining components of the
state are unchanged. -/
theorem grid_destroy_unknown_warns (st : UIState) (g : Int)
    (h : lookupKey g st.grids = none) :
    (st.grid_destroy g).2 = true ∧
    (st.grid_destroy g).1.grids = st.grids ∧
    (st.grid_destroy g).1.current_grid = 1 ∧
    (st.grid_destroy g).1.windows =
      (if (lookupKey g st.windows).isSome then removeKey g st.windows
       else st.windows) ∧
    (st.grid_destroy g).1.hl_defs = st.hl_defs ∧
    (st.grid_destroy g).1.wildmenu_shown = st.wildmenu_shown ∧
    (st.grid_destroy g).1.resize_on_flush = st.resize_on_flush := by
  refine ⟨?_, ?_, rfl, rfl, rfl, rfl, rfl⟩
  · show (lookupKey g st.grids).isNone = true
    simp [h]
  · exact removeKey_eq_of_lookup_none h

/-- Witness for the amended claim C6 at a concrete state holding
grids 1 and 2, destroying the unknown grid 5. -/
theorem grid_destroy_unknown_warns_witness :
    lookupKey 5 twoGridState.grids = none ∧
    ((twoGridState.grid_destroy 5).2 = true ∧
     (twoGridState.grid_destroy 5).1.grids = twoGridState.grids ∧
     (twoGridState.grid_destroy 5).1.current_grid = 1 ∧
     (twoGridState.grid_destroy 5).1.windows =
       (if (lookupKey 5 twoGridState.windows).isSome then
          removeKey 5 twoGridState.windows
        else twoGridState.windows) ∧
     (twoGridState.grid_destroy 5).1.hl_defs = twoGridState.hl_defs ∧
     (twoGridState.grid_destroy 5).1.wildmenu_shown =
       twoGridState.wildmenu_shown ∧
     (twoGridState.grid_destroy 5).1.resize_on_flush =
       twoGridState.resize_on_flush) :=
  ⟨by rfl, grid_destroy_unknown_warns twoGridState 5 (by rfl)⟩

/-- Claim C10: destroying any existing grid unconditionally resets
current_grid to 1, even when the destroyed grid was neither the
current grid nor grid 1. -/
theorem grid_destroy_unconditional_reset (st : UIState) (g : Int)
    (gA : Grid) (hex : lookupKey g st.grids = some gA)
    (hcur : g ≠ st.current_grid) (hone : st.current_grid ≠ 1) :
    st.current_grid ≠ 1 ∧ (st.grid_destroy g).1.current_grid = 1 :=
  ⟨hone, rfl⟩

/-- Witness for claim C10 at a concrete state holding grids 1, 2 and
3 with grid 2 current, destroying grid 3. -/
theorem grid_destroy_unconditional_reset_witness :
    lookupKey 3 threeGridState.grids = some (sampleGrid 3 20 5) ∧
    (3 : Int) ≠ threeGridState.current_grid ∧
    threeGridState.current_grid ≠ 1 ∧
    (threeGridState.current_grid ≠ 1 ∧
     (threeGridState.grid_destroy 3).1.current_grid = 1) :=
  ⟨by rfl, by decide, by decide,
    grid_destroy_unconditional_reset threeGridState 3
      (sampleGrid 3 20 5) (by rfl) (by decide) (by decide)⟩

/-- Claim C5 counterexample: a grid_line event addressing the unknown
grid 5 does not fail in a reportable, non-fatal way; the source
unwraps the lookup, so the operation panics (modelled by none) and
processing of subsequent events does not continue. -/
theorem grid_line_unknown_cex :
    (baseState.grid_line lineToUnknownGrid).isSome = false := by
  rfl

/-- Claim C5, amended: a put_line event whose grid id does not exist
in the grid collection makes UIState::grid_line panic on the unwrapped
lookup (modelled by none), aborting event processing, instead of
logging and continuing. -/
theorem grid_line_unknown_panics (st : UIState)
    (line : GridLineSegment)
    (h : lookupKey line.grid st.grids = none) :
    st.grid_line line = none := by
  simp [UIState.grid_line, h]

/-- Witness for the amended claim C5 at a concrete state holding only
grid 1 while the segment addresses grid 5. -/
theorem grid_line_unknown_panics_witness :
    lookupKey lineToUnknownGrid.grid baseState.grids = none ∧
    baseState.grid_line lineToUnknownGrid = none :=
  ⟨by rfl, grid_line_unknown_panics baseState lineToUnknownGrid (by rfl)⟩

/-- Claim C7 counterexample: an HlGroupSet event with the unrecognized
name Comment leaves the role mapping unchanged but still flips the
hl_changed dirty flag from false to true, so the operation is not a
no-op on the state. -/
theorem hl_group_set_unrecognized_cex :
    (baseState.hl_group_set { name := "Comment", hl_id := 5 }).hl_defs =
      baseState.hl_defs ∧
    baseState.hl_changed = false ∧
    (baseState.hl_group_set
      { name := "Comment", hl_id := 5 }).hl_changed = true := by
  refine ⟨?_, rfl, rfl⟩
  rfl

/-- Claim C7, amended: an HlGroupSet event whose group name is not one
of the seven recognized names changes no role mapping and no other
component of the state except the hl_changed dirty flag, which the
operation sets to true on every path. -/
theorem hl_group_set_unrecognized (st : UIState) (e : HlGroupSet)
    (h : ¬ e.name ∈ recognizedHlGroups) :
    st.hl_group_set e = { st with hl_changed := true } := by
  simp only [recognizedHlGroups, List.mem_cons, List.mem_singleton,
    not_or] at h
  obtain ⟨h1, h2, h3, h4, h5, h6, h7⟩ := h
  simp [UIState.hl_group_set, h1, h2, h3, h4, h5, h6, h7]

/-- Witness for the amended claim C7 at a concrete state and the
unrecognized group name Comment. -/
theorem hl_group_set_unrecognized_witness :
    ¬ "Comment" ∈ recognizedHlGroups ∧
    baseState.hl_group_set { name := "Comment", hl_id := 5 } =
      { baseState with hl_changed := true } :=
  ⟨by decide,
    hl_group_set_unrecognized baseState
      { name := "Comment", hl_id := 5 } (by decide)⟩

/-- Claim C8 counterexample: after a wildmenu show (grid -1) followed
by a completion-menu show on grid 2, a PopupmenuHide still routes to
the wildmenu hide path, although the most recent show was the
completion menu; the wildmenu_shown flag is never cleared by any
event, so routing does not match the most recent show. -/
theorem popupmenu_routing_cex :
    pmState.popupmenu_show pmShowWild =
      some (pmStateWild, PmEffect.WildmenuShow) ∧
    pmStateWild.popupmenu_show pmShowMenu =
      some (pmStateWild, PmEffect.MenuShow) ∧
    pmStateWild.popupmenu_hide = (pmStateWild, PmEffect.WildmenuHide) := by
  refine ⟨?_, ?_, ?_⟩
  · rfl
  · rfl
  · rfl

/-- Claim C8, amended: a PopupmenuShow with grid -1 sets
wildmenu_shown to true and routes to the wildmenu treatment, a
PopupmenuShow with a real grid id routes to the completion-menu
treatment while leaving wildmenu_shown unchanged, and subsequent
PopupmenuHide and PopupmenuSelect events route to the wildmenu
treatment exactly when wildmenu_shown is set, that is, exactly when
some earlier show carried grid -1 (not necessarily the most recent
one); in particular, after a wildmenu show a hide takes the wildmenu
hide path. -/
theorem popupmenu_routing_flag (st : UIState) (e : PopupmenuShow)
    (e2 : PopupmenuShow) (i : Int) (h : e.grid ≠ -1)
    (h2 : e2.grid = -1) :
    (st.popupmenu_hide.2 = PmEffect.WildmenuHide ↔
      st.wildmenu_shown = true) ∧
    st.popupmenu_hide.1 = st ∧
    ((st.popupmenu_select i).2 = PmEffect.WildmenuSelect i ↔
      st.wildmenu_shown = true) ∧
    (st.popupmenu_select i).1 = st ∧
    st.popupmenu_show e2 =
      some ({ st with wildmenu_shown := true }, PmEffect.WildmenuShow) ∧
    (∀ p, st.popupmenu_show e = some p →
      p.1 = st ∧ p.2 = PmEffect.MenuShow) := by
  refine ⟨?_, ?_, ?_, ?_, ?_, ?_⟩
  · by_cases hw : st.wildmenu_shown <;>
      simp [UIState.popupmenu_hide, hw]
  · by_cases hw : st.wildmenu_shown <;>
      simp [UIState.popupmenu_hide, hw]
  · by_cases hw : st.wildmenu_shown <;>
      simp [UIState.popupmenu_select, hw]
  · by_cases hw : st.wildmenu_shown <;>
      simp [UIState.popupmenu_select, hw]
  · simp [UIState.popupmenu_show, h2]
  · intro p hp
    simp only [UIState.popupmenu_show, h, if_false] at hp
    cases hcg : lookupKey st.current_grid st.grids with
    | none => simp [hcg] at hp
    | some gr =>
      cases hw : lookupKey e.grid st.windows with
      | none => simp [hcg, hw] at hp
      | some w =>
        simp [hcg, hw] at hp
        cases hp
        simp

/-- Witness for the amended claim C8 at the concrete popupmenu state,
with the completion-menu show on grid 2 and the wildmenu show on
grid -1. -/
theorem popupmenu_routing_flag_witness :
    pmShowMenu.grid ≠ -1 ∧
    pmShowWild.grid = -1 ∧
    ((pmState.popupmenu_hide.2 = PmEffect.WildmenuHide ↔
        pmState.wildmenu_shown = true) ∧
      pmState.popupmenu_hide.1 = pmState ∧
      ((pmState.popupmenu_select 0).2 = PmEffect.WildmenuSelect 0 ↔
        pmState.wildmenu_shown = true) ∧
      (pmState.popupmenu_select 0).1 = pmState ∧
      pmState.popupmenu_show pmShowWild =
        some ({ pmState with wildmenu_shown := true },
          PmEffect.WildmenuShow) ∧
      (∀ p, pmState.popupmenu_show pmShowMenu = some p →
        p.1 = pmState ∧ p.2 = PmEffect.MenuShow)) :=
  ⟨by decide, by decide,
    popupmenu_routing_flag pmState pmShowMenu pmShowWild 0
      (by decide) (by decide)⟩

theorem set_external_external_isSome (w : Window) (p : Nat)
    (s : Int × Int) :
    ((w.set_external p s).external_win).isSome = true := by
  by_cases hw : w.external_win.isSome <;>
    simp [Window.set_external, hw]

theorem resize_resize (g : Grid) (c : Nat) (r : Nat) :
    (g.resize c r).resize c r = g.resize c r := by
  simp [Grid.resize]

theorem resize_cols (g : Grid) (c : Nat) (r : Nat) :
    (g.resize c r).cols = c :=
  rfl

theorem resize_rows (g : Grid) (c : Nat) (r : Nat) :
    (g.resize c r).rows = r :=
  rfl

theorem set_external_of_isSome (w : Window) (p : Nat) (s : Int × Int)
    (hw : w.external_win.isSome = true) :
    w.set_external p s = w := by
  simp [Window.set_external, hw]

theorem trunc_metrics_cols (g : Grid) :
    ratTruncU64 (g.get_grid_metrics).cols = g.cols := by
  simp [Grid.get_grid_metrics, ratTruncU64_natCast]

theorem trunc_metrics_rows (g : Grid) :
    ratTruncU64 (g.get_grid_metrics).rows = g.rows := by
  simp [Grid.get_grid_metrics, ratTruncU64_natCast]

/-- Claim C9: promotion to an external surface is idempotent: a
window whose external surface is already active is left untouched by
Window::set_external, and applying UIState::window_external_pos twice
leaves the same state (and the same panic behavior) as applying it
once. -/
theorem window_external_pos_idempotent (w : Window) (p : Nat)
    (s : Int × Int) (st : UIState) (e : WindowExternalPos)
    (hw : w.external_win.isSome = true) :
    w.set_external p s = w ∧
    (st.window_external_pos e).bind
      (fun st1 => st1.window_external_pos e) =
      st.window_external_pos e := by
  refine ⟨by simp [Window.set_external, hw], ?_⟩
  cases hg : lookupKey e.grid st.grids with
  | none => simp [UIState.window_external_pos, hg]
  | some grid =>
    have hstep : st.window_external_pos e =
        some
          { st with
            windows :=
              insertKey e.grid
                (((lookupKey e.grid st.windows).getD
                  (Window.new e.win windowsFloatContainerId
                    grid)).set_external appWindowId
                  (Rat.ceil (grid.get_grid_metrics).width,
                   Rat.ceil (grid.get_grid_metrics).height))
                st.windows
            grids :=
              insertKey e.grid
                (grid.resize (ratTruncU64 (grid.get_grid_metrics).cols)
                  (ratTruncU64 (grid.get_grid_metrics).rows))
                st.grids } := by
      simp [UIState.window_external_pos, hg]
    rw [hstep]
    simp only [Option.some_bind]
    rw [trunc_metrics_cols, trunc_metrics_rows]
    have hlg :
        lookupKey e.grid
          (insertKey e.grid (grid.resize grid.cols grid.rows)
            st.grids) =
          some (grid.resize grid.cols grid.rows) :=
      lookupKey_insertKey_self _ _ _
    have hlw :
        lookupKey e.grid
          (insertKey e.grid
            (((lookupKey e.grid st.windows).getD
              (Window.new e.win windowsFloatContainerId
                grid)).set_external appWindowId
              (Rat.ceil (grid.get_grid_metrics).width,
               Rat.ceil (grid.get_grid_metrics).height))
            st.windows) =
          some
            (((lookupKey e.grid st.windows).getD
              (Window.new e.win windowsFloatContainerId
                grid)).set_external appWindowId
              (Rat.ceil (grid.get_grid_metrics).width,
               Rat.ceil (grid.get_grid_metrics).height)) :=
      lookupKey_insertKey_self _ _ _
    simp only [UIState.window_external_pos, hlg, hlw,
      Option.getD_some, trunc_metrics_cols, trunc_metrics_rows,
      resize_cols, resize_rows, resize_resize, insertKey_insertKey,
      set_external_of_isSome, set_external_external_isSome]

/-- Witness for claim C9 at a concrete externalized window, together
with a concrete state and event. -/
theorem window_external_pos_idempotent_witness :
    extWindow.external_win.isSome = true ∧
    (extWindow.set_external 0 (3, 4) = extWindow ∧
     (baseState.window_external_pos { grid := 2, win := 7 }).bind
       (fun st1 => st1.window_external_pos { grid := 2, win := 7 }) =
       baseState.window_external_pos { grid := 2, win := 7 }) :=
  ⟨rfl,
    window_external_pos_idempotent extWindow 0 (3, 4) baseState
      { grid := 2, win := 7 } rfl⟩

theorem flushHl_resize_on_flush (st : UIState) :
    st.flushHl.resize_on_flush = st.resize_on_flush := by
  by_cases hc : st.hl_changed <;> simp [UIState.flushHl, hc]

theorem option_set_accumulates (evs : List OptionSet) :
    ∀ (st : UIState) (acc : ResizeOptions),
      st.resize_on_flush = some acc →
      (∀ e ∈ evs, isResizeOpt e = true) →
      ∃ st2, applyOptionSets st evs = some st2 ∧
        st2.grids = st.grids ∧
        st2.resize_on_flush = some (evs.foldl applyResizeOpt acc) := by
  induction evs with
  | nil =>
    intro st acc h _
    exact ⟨st, rfl, rfl, by simp [h]⟩
  | cons e rest ih =>
    intro st acc h hall
    have hrest : ∀ x ∈ rest, isResizeOpt x = true := by
      intro x hx
      exact hall x (List.mem_cons_of_mem _ hx)
    cases e with
    | GuiFont name =>
      have hstep : st.option_set (OptionSet.GuiFont name) =
          some
            { st with
              font := (Font.from_guifont name).getD Font.default
              resize_on_flush :=
                some
                  { acc with
                    font := (Font.from_guifont name).getD Font.default } } := by
        simp [UIState.option_set, h]
      obtain ⟨st2, h1, h2, h3⟩ :=
        ih
          { st with
            font := (Font.from_guifont name).getD Font.default
            resize_on_flush :=
              some
                { acc with
                  font := (Font.from_guifont name).getD Font.default } }
          { acc with
            font := (Font.from_guifont name).getD Font.default }
          rfl hrest
      refine ⟨st2, ?_, h2, ?_⟩
      · simp [applyOptionSets, hstep]
        exact h1
      · rw [h3]
        rfl
    | LineSpace val =>
      have hstep : st.option_set (OptionSet.LineSpace val) =
          some
            { st with
              line_space := val
              resize_on_flush :=
                some { acc with line_space := val } } := by
        simp [UIState.option_set, h]
      obtain ⟨st2, h1, h2, h3⟩ :=
        ih
          { st with
            line_space := val
            resize_on_flush := some { acc with line_space := val } }
          { acc with line_space := val } rfl hrest
      refine ⟨st2, ?_, h2, ?_⟩
      · simp [applyOptionSets, hstep]
        exact h1
      · rw [h3]
        rfl
    | NotSupported name =>
      have : isResizeOpt (OptionSet.NotSupported name) = true :=
        hall _ (List.mem_cons_self _ _)
      simp [isResizeOpt] at this

theorem option_set_seeds (e : OptionSet) (rest : List OptionSet)
    (st : UIState) (g1 : Grid)
    (hpend : st.resize_on_flush = none)
    (hg : lookupKey 1 st.grids = some g1)
    (hall : ∀ x ∈ e :: rest, isResizeOpt x = true) :
    ∃ st2, applyOptionSets st (e :: rest) = some st2 ∧
      st2.grids = st.grids ∧
      st2.resize_on_flush =
        some ((e :: rest).foldl applyResizeOpt
          { font := g1.get_font, line_space := g1.get_line_space }) := by
  have hrest : ∀ x ∈ rest, isResizeOpt x = true := by
    intro x hx
    exact hall x (List.mem_cons_of_mem _ hx)
  cases e with
  | GuiFont name =>
    have hstep : st.option_set (OptionSet.GuiFont name) =
        some
          { st with
            font := (Font.from_guifont name).getD Font.default
            resize_on_flush :=
              some
                { font := (Font.from_guifont name).getD Font.default
                  line_space := g1.get_line_space } } := by
      simp [UIState.option_set, hpend, hg]
    obtain ⟨st2, h1, h2, h3⟩ :=
      option_set_accumulates rest
        { st with
          font := (Font.from_guifont name).getD Font.default
          resize_on_flush :=
            some
              { font := (Font.from_guifont name).getD Font.default
                line_space := g1.get_line_space } }
        { font := (Font.from_guifont name).getD Font.default
          line_space := g1.get_line_space }
        rfl hrest
    refine ⟨st2, ?_, h2, ?_⟩
    · simp [applyOptionSets, hstep]
      exact h1
    · rw [h3]
      rfl
  | LineSpace val =>
    have hstep : st.option_set (OptionSet.LineSpace val) =
        some
          { st with
            line_space := val
            resize_on_flush :=
              some { font := g1.get_font, line_space := val } } := by
      simp [UIState.option_set, hpend, hg]
    obtain ⟨st2, h1, h2, h3⟩ :=
      option_set_accumulates rest
        { st with
          line_space := val
          resize_on_flush :=
            some { font := g1.get_font, line_space := val } }
        { font := g1.get_font, line_space := val } rfl hrest
    refine ⟨st2, ?_, h2, ?_⟩
    · simp [applyOptionSets, hstep]
      exact h1
    · rw [h3]
      rfl
  | NotSupported name =>
    have : isResizeOpt (OptionSet.NotSupported name) = true :=
      hall _ (List.mem_cons_self _ _)
    simp [isResizeOpt] at this

/-- Claim C3: the pending resize record is at most one (an Option
field): any sequence of font and line-space OptionSet events coalesces
into the single record, seeded on first use from the current font and
line spacing of grid 1 so that changing only one of the two fields
does not clobber the other, and the following Flush emits exactly one
ui_try_resize request whose payload is the column and row count of
grid 1 computed after the pending font and line spacing are applied;
afterwards the pending record is cleared. -/
theorem option_set_flush_single_resize (st : UIState)
    (evs : List OptionSet) (g1 : Grid) (hne : evs ≠ [])
    (hall : ∀ e ∈ evs, isResizeOpt e = true)
    (hg : lookupKey 1 st.grids = some g1)
    (hpend : st.resize_on_flush = none) :
    ∃ st2, applyOptionSets st evs = some st2 ∧
      st2.resize_on_flush =
        some (evs.foldl applyResizeOpt
          { font := g1.get_font, line_space := g1.get_line_space }) ∧
      ∃ st3,
        st2.flush =
          some (st3,
            [Request.UiTryResize
              (Grid.calc_size (g1.update_cell_metrics
                (evs.foldl applyResizeOpt
                  { font := g1.get_font,
                    line_space := g1.get_line_space }).font
                (evs.foldl applyResizeOpt
                  { font := g1.get_font,
                    line_space := g1.get_line_space }).line_space)).1
              (Grid.calc_size (g1.update_cell_metrics
                (evs.foldl applyResizeOpt
                  { font := g1.get_font,
                    line_space := g1.get_line_space }).font
                (evs.foldl applyResizeOpt
                  { font := g1.get_font,
                    line_space := g1.get_line_space }).line_space)).2]) ∧
        st3.resize_on_flush = none := by
  cases evs with
  | nil => exact absurd rfl hne
  | cons e rest =>
    obtain ⟨st2, h1, h2, h3⟩ := option_set_seeds e rest st g1 hpend hg hall
    set opts :=
      (e :: rest).foldl applyResizeOpt
        { font := g1.get_font, line_space := g1.get_line_space : ResizeOptions }
      with hopts
    refine ⟨st2, h1, h3, ?_⟩
    have hmap :
        lookupKey 1
          (st2.grids.map fun p =>
            (p.1, p.2.update_cell_metrics opts.font opts.line_space)) =
          some (g1.update_cell_metrics opts.font opts.line_space) := by
      rw [h2]
      have hl :=
        lookupKey_map
          (fun g : Grid =>
            g.update_cell_metrics opts.font opts.line_space)
          1 st.grids
      rw [hg] at hl
      simpa using hl
    refine
      ⟨UIState.flushHl
        { st2 with
          grids :=
            st2.grids.map fun p =>
              (p.1, p.2.update_cell_metrics opts.font opts.line_space)
          resize_on_flush := none
          resize_source_id := none },
        ?_, flushHl_resize_on_flush _⟩
    simp only [UIState.flush, h3, hmap]

/-- Witness for claim C3: starting from the concrete base state, a
line-space change followed by a font change coalesce into one pending
record and one flush request. -/
theorem option_set_flush_single_resize_witness :
    ([OptionSet.LineSpace 2, OptionSet.GuiFont ("Mono")] ≠
      ([] : List OptionSet)) ∧
    (∀ e ∈ [OptionSet.LineSpace 2, OptionSet.GuiFont ("Mono")],
      isResizeOpt e = true) ∧
    lookupKey 1 baseState.grids = some (sampleGrid 1 80 24) ∧
    baseState.resize_on_flush = none ∧
    (∃ st2,
      applyOptionSets baseState
        [OptionSet.LineSpace 2, OptionSet.GuiFont ("Mono")] = some st2 ∧
      st2.resize_on_flush =
        some ([OptionSet.LineSpace 2,
            OptionSet.GuiFont ("Mono")].foldl applyResizeOpt
          { font := (sampleGrid 1 80 24).get_font
            line_space := (sampleGrid 1 80 24).get_line_space }) ∧
      ∃ st3,
        st2.flush =
          some (st3,
            [Request.UiTryResize
              (Grid.calc_size ((sampleGrid 1 80 24).update_cell_metrics
                ([OptionSet.LineSpace 2,
                    OptionSet.GuiFont ("Mono")].foldl applyResizeOpt
                  { font := (sampleGrid 1 80 24).get_font
                    line_space :=
                      (sampleGrid 1 80 24).get_line_space }).font
                ([OptionSet.LineSpace 2,
                    OptionSet.GuiFont ("Mono")].foldl applyResizeOpt
                  { font := (sampleGrid 1 80 24).get_font
                    line_space :=
                      (sampleGrid 1 80 24).get_line_space }).line_space)).1
              (Grid.calc_size ((sampleGrid 1 80 24).update_cell_metrics
                ([OptionSet.LineSpace 2,
                    OptionSet.GuiFont ("Mono")].foldl applyResizeOpt
                  { font := (sampleGrid 1 80 24).get_font
                    line_space :=
                      (sampleGrid 1 80 24).get_line_space }).font
                ([OptionSet.LineSpace 2,
                    OptionSet.GuiFont ("Mono")].foldl applyResizeOpt
                  { font := (sampleGrid 1 80 24).get_font
                    line_space :=
                      (sampleGrid 1 80 24).get_line_space }).line_space)).2]) ∧
        st3.resize_on_flush = none) :=
  ⟨by decide, by decide, by rfl, by rfl,
    option_set_flush_single_resize baseState
      [OptionSet.LineSpace 2, OptionSet.GuiFont ("Mono")]
      (sampleGrid 1 80 24) (by decide) (by decide) (by rfl) (by rfl)⟩
